import Mathlib

/-!
# Food marketplace backend — order workflow verification

A shallow embedding of the order placement and fulfilment workflow of the
marketplace backend (Express/MySQL).  Database tables become lists of rows,
SQL statements become list operations, the per-request MySQL transaction
becomes an explicit "build the post-state, publish it only on commit"
discipline, and monetary DECIMAL(10,2) columns become exact rationals.
The JavaScript binary floating-point arithmetic used by the handler before
persistence is modelled separately (`fp64`, `jsSubtotal`, ...) for the
numerical claims.
-/

namespace FoodMarket

/-- Row of `restaurants` (the columns the workflow reads):
`SELECT id, delivery_fee FROM restaurants WHERE id = ? AND is_active = true`
plus `cook_id`, used by the per-route permission checks. -/
structure Restaurant where
  id : Nat
  cook_id : Nat
  is_active : Bool
  delivery_fee : ℚ
deriving DecidableEq

/-- Row of `food_items` (the columns the workflow reads and writes):
`id, restaurant_id, name, price, is_available, total_orders`. -/
structure FoodItem where
  id : Nat
  restaurant_id : Nat
  name : String
  price : ℚ
  is_available : Bool
  total_orders : Nat
deriving DecidableEq

/-- Row of `orders`.  Defaults mirror the schema's column defaults
(`status DEFAULT 'pending'`, `discount_amount DEFAULT 0.00`,
`payment_status DEFAULT 'pending'`, `delivered_at` NULL): the INSERT in the
creation handler names none of these columns, so the defaults apply.
Timestamps are abstracted to `Nat` milliseconds; `delivery_address` is the
JSON text threaded through opaquely. -/
structure Order where
  id : Nat
  customer_id : Nat
  restaurant_id : Nat
  order_number : String
  status : String := "pending"
  total_amount : ℚ
  delivery_fee : ℚ := 0
  tax_amount : ℚ := 0
  discount_amount : ℚ := 0
  final_amount : ℚ
  payment_method : String
  payment_status : String := "pending"
  delivery_address : String := ""
  special_instructions : Option String := none
  estimated_delivery_time : Nat := 0
  delivered_at : Option Nat := none
deriving DecidableEq

/-- Row of `order_items`. -/
structure OrderItem where
  order_id : Nat
  food_item_id : Nat
  quantity : Nat
  unit_price : ℚ
  total_price : ℚ
  special_requests : Option String := none
deriving DecidableEq

/-- Row of `cart_items` (the columns the cleanup DELETE touches). -/
structure CartItem where
  customer_id : Nat
  food_item_id : Nat
  quantity : Nat
deriving DecidableEq

/-- The persistent store: one list per table the workflow touches. -/
structure DB where
  restaurants : List Restaurant
  food_items : List FoodItem
  orders : List Order
  order_items : List OrderItem
  cart_items : List CartItem
deriving DecidableEq

/-- `req.user` as populated by `authenticateToken`. -/
structure User where
  id : Nat
  user_type : String
deriving DecidableEq

/-- `AppError(message, statusCode)` from the error-handling middleware. -/
structure AppError where
  statusCode : Nat
  message : String
deriving DecidableEq

/-- One element of the request body's `items` array. -/
structure ItemReq where
  food_item_id : Nat
  quantity : Nat
  special_requests : Option String := none
deriving DecidableEq

/-- Request body of `POST /api/orders`. -/
structure OrderRequest where
  restaurant_id : Nat
  items : List ItemReq
  payment_method : String
  delivery_address : String := ""
  special_instructions : Option String := none
deriving DecidableEq

/-- One entry of the handler's `orderItems` accumulator: the resolved line
with the price snapshot taken from the catalog row. -/
structure ResolvedItem where
  food_item_id : Nat
  quantity : Nat
  unit_price : ℚ
  total_price : ℚ
  special_requests : Option String := none
deriving DecidableEq

/-- The express-validator chain on `POST /api/orders`:
`restaurant_id` a positive int, `items` a non-empty array of positive
int ids and quantities, `payment_method` one of the four values.
(`delivery_address.isObject()` is guaranteed by the embedding's types.) -/
def validateOrderRequest (req : OrderRequest) : Bool :=
  1 ≤ req.restaurant_id &&
  !req.items.isEmpty &&
  req.items.all (fun it => 1 ≤ it.food_item_id && 1 ≤ it.quantity) &&
  ["cash", "card", "upi", "wallet"].contains req.payment_method

/-- The validation loop of the creation handler: for each requested line,
`SELECT id, name, price, is_available FROM food_items WHERE id = ? AND
restaurant_id = ?`; throw 404 if absent, 400 if `is_available` is false;
otherwise push `{food_item_id, quantity, unit_price := price,
total_price := price * quantity, special_requests}` onto `orderItems`. -/
def resolveItems (foodItems : List FoodItem) (restaurant_id : Nat) :
    List ItemReq → Except AppError (List ResolvedItem)
  | [] => .ok []
  | item :: rest =>
    match foodItems.find? (fun fi => fi.id == item.food_item_id &&
        fi.restaurant_id == restaurant_id) with
    | none => .error ⟨404, "Food item not found"⟩
    | some fi =>
      if !fi.is_available then
        .error ⟨400, "Food item is not available"⟩
      else
        match resolveItems foodItems restaurant_id rest with
        | .error e => .error e
        | .ok tail =>
          .ok ({ food_item_id := item.food_item_id
                 quantity := item.quantity
                 unit_price := fi.price
                 total_price := fi.price * (item.quantity : ℚ)
                 special_requests := item.special_requests } :: tail)

/-- The per-line `UPDATE food_items SET total_orders = total_orders + ?
WHERE id = ?` statements, executed once per resolved line. -/
def incrementCounts (foodItems : List FoodItem) :
    List ResolvedItem → List FoodItem
  | [] => foodItems
  | it :: rest =>
    incrementCounts
      (foodItems.map fun fi =>
        if fi.id == it.food_item_id then
          { fi with total_orders := fi.total_orders + it.quantity }
        else fi)
      rest

/-- `AUTO_INCREMENT` id for the new `orders` row. -/
def nextOrderId (db : DB) : Nat :=
  (db.orders.foldr (fun o m => max o.id m) 0) + 1

/-- The cleanup `DELETE ci FROM cart_items ci JOIN food_items fi ON
ci.food_item_id = fi.id WHERE ci.customer_id = ? AND fi.restaurant_id = ?`:
a row survives unless it is the customer's and joins to a food item of the
ordered restaurant. -/
def clearCart (cart : List CartItem) (foodItems : List FoodItem)
    (customer_id restaurant_id : Nat) : List CartItem :=
  cart.filter fun ci =>
    !(ci.customer_id == customer_id &&
      foodItems.any (fun fi => fi.id == ci.food_item_id &&
        fi.restaurant_id == restaurant_id))

/-- Everything the `POST /api/orders` handler does inside the MySQL
transaction, up to (and including) building the state that `commit` would
publish.  Any thrown `AppError` here is caught by the handler's `catch`,
which rolls the transaction back — hence an error result carries no state.

Steps, in source order: restaurant lookup (404 if absent or inactive), the
per-line validation loop (`resolveItems`), totals
(`totalAmount`, 5% `taxAmount`, `finalAmount`), the single
`INSERT INTO orders` (a duplicate `order_number` violates the UNIQUE key and
surfaces as the error-handler's `ER_DUP_ENTRY` 400), the `order_items`
inserts, the `total_orders` counter updates, and the cart cleanup DELETE.
`nums` is the stream of values the order-number generator would produce;
the handler calls `generateOrderNumber()` exactly once, i.e. consumes only
the head. -/
def createOrderCore (db : DB) (customer_id : Nat) (req : OrderRequest)
    (nums : List String) (now : Nat) : Except AppError (Nat × DB) :=
  match db.restaurants.find? (fun r => r.id == req.restaurant_id && r.is_active) with
  | none => .error ⟨404, "Restaurant not found or inactive"⟩
  | some restaurant =>
    match resolveItems db.food_items req.restaurant_id req.items with
    | .error e => .error e
    | .ok orderItems =>
      let totalAmount : ℚ := (orderItems.map (·.total_price)).sum
      let deliveryFee : ℚ := restaurant.delivery_fee
      let taxAmount : ℚ := totalAmount * (5 / 100)
      let finalAmount : ℚ := totalAmount + deliveryFee + taxAmount
      let orderNumber := nums.headD ""
      if db.orders.any (fun o => o.order_number == orderNumber) then
        .error ⟨400, "Duplicate field value entered"⟩
      else
        let orderId := nextOrderId db
        let newOrder : Order :=
          { id := orderId
            customer_id := customer_id
            restaurant_id := req.restaurant_id
            order_number := orderNumber
            total_amount := totalAmount
            delivery_fee := deliveryFee
            tax_amount := taxAmount
            final_amount := finalAmount
            payment_method := req.payment_method
            delivery_address := req.delivery_address
            special_instructions := req.special_instructions
            estimated_delivery_time := now + 45 * 60000 }
        let newLines := orderItems.map fun it =>
          { order_id := orderId
            food_item_id := it.food_item_id
            quantity := it.quantity
            unit_price := it.unit_price
            total_price := it.total_price
            special_requests := it.special_requests : OrderItem }
        let foodItems' := incrementCounts db.food_items orderItems
        .ok (orderId,
          { db with
            orders := db.orders ++ [newOrder]
            order_items := db.order_items ++ newLines
            food_items := foodItems'
            cart_items := clearCart db.cart_items foodItems' customer_id
                            req.restaurant_id })

/-- The full `POST /api/orders` handler.  The express-validator failures
return 400 before the transaction starts.  After `commit`, the handler emits
the `new_order` socket notification; `emitOk = false` models that emit
throwing (e.g. the `socketio` handle being absent), in which case the
handler's `catch` runs `rollback` — a no-op for the already-committed
transaction — and rethrows, so the caller sees an error although the
committed state stands. -/
def createOrder (db : DB) (customer_id : Nat) (req : OrderRequest)
    (nums : List String) (now : Nat) (emitOk : Bool) :
    Except AppError Nat × DB :=
  if !validateOrderRequest req then
    (.error ⟨400, "Validation failed"⟩, db)
  else
    match createOrderCore db customer_id req nums now with
    | .error e => (.error e, db)
    | .ok (orderId, db') =>
      if emitOk then (.ok orderId, db')
      else (.error ⟨500, "dispatch threw after commit"⟩, db')

/-- All the conditions under which the creation transaction commits:
request shape valid, restaurant present and active, every line resolving to
an available item of that restaurant, and the (single) generated order
number fresh. -/
def creationPersists (db : DB) (req : OrderRequest) (nums : List String) :
    Bool :=
  validateOrderRequest req &&
  (db.restaurants.find? (fun r => r.id == req.restaurant_id && r.is_active)).isSome &&
  (resolveItems db.food_items req.restaurant_id req.items).toOption.isSome &&
  !(db.orders.any (fun o => o.order_number == nums.headD ""))

/-- `GET /api/orders/:id`.  Returns the order row and its `order_items`
rows (the SQL join to `food_items` only decorates each line with a display
name/image and is dropped here).  Visibility: a customer other than the
order's customer is rejected 403; a cook whose (first) restaurant is not
the order's restaurant — or who has no restaurant — is rejected 403. -/
def getOrder (db : DB) (user : User) (orderId : Nat) :
    Except AppError (Order × List OrderItem) :=
  match db.orders.find? (fun o => o.id == orderId) with
  | none => .error ⟨404, "Order not found"⟩
  | some order =>
    if user.user_type == "customer" && order.customer_id != user.id then
      .error ⟨403, "Unauthorized to view this order"⟩
    else if user.user_type == "cook" then
      match db.restaurants.find? (fun r => r.cook_id == user.id) with
      | none => .error ⟨403, "Unauthorized to view this order"⟩
      | some r =>
        if order.restaurant_id != r.id then
          .error ⟨403, "Unauthorized to view this order"⟩
        else
          .ok (order, db.order_items.filter (fun oi => oi.order_id == order.id))
    else
      .ok (order, db.order_items.filter (fun oi => oi.order_id == order.id))

/-- The six values of the `orders.status` ENUM, as accepted by the
`body('status').isIn([...])` validator. -/
def validStatuses : List String :=
  ["pending", "confirmed", "preparing", "sent_to_delivery", "delivered",
   "cancelled"]

/-- `PATCH /api/orders/:id/status`.  Validator 400 on a target outside the
ENUM; 404 if the order is absent; a cook must own the order's restaurant,
any non-cook non-admin caller gets 403.  The UPDATE sets `status`, and
additionally `delivered_at = NOW()` exactly when the target is
`delivered`; no check against the current status is made. -/
def updateOrderStatus (db : DB) (user : User) (orderId : Nat)
    (target : String) (now : Nat) : Except AppError Unit × DB :=
  if !(validStatuses.contains target) then
    (.error ⟨400, "Validation failed"⟩, db)
  else
    match db.orders.find? (fun o => o.id == orderId) with
    | none => (.error ⟨404, "Order not found"⟩, db)
    | some order =>
      let doUpdate : Except AppError Unit × DB :=
        (.ok (),
         { db with
           orders := db.orders.map fun o =>
             if o.id == orderId then
               { o with
                 status := target
                 delivered_at :=
                   if target == "delivered" then some now else o.delivered_at }
             else o })
      if user.user_type == "cook" then
        match db.restaurants.find? (fun r => r.cook_id == user.id) with
        | none => (.error ⟨403, "Unauthorized to update this order"⟩, db)
        | some r =>
          if order.restaurant_id != r.id then
            (.error ⟨403, "Unauthorized to update this order"⟩, db)
          else doUpdate
      else if user.user_type != "admin" then
        (.error ⟨403, "Insufficient permissions"⟩, db)
      else doUpdate

/-- The price-changing core of `PUT /api/food/:id`:
`UPDATE food_items SET price = ? WHERE id = ?` (the catalog-management
mutation a stored order line must be immune to). -/
def updateFoodItemPrice (db : DB) (foodItemId : Nat) (newPrice : ℚ) : DB :=
  { db with
    food_items := db.food_items.map fun fi =>
      if fi.id == foodItemId then { fi with price := newPrice } else fi }

/-! ## Order-number generation -/

/-- Little-endian decimal digit characters of `n`, fuel-driven so that the
recursion is structural (`n` itself is always enough fuel). -/
def digitCharsRev (fuel : Nat) (n : Nat) : List Char :=
  match fuel with
  | 0 => []
  | fuel + 1 =>
    if n = 0 then []
    else Nat.digitChar (n % 10) :: digitCharsRev fuel (n / 10)

/-- Big-endian decimal digit characters of `n`, i.e. JavaScript's
`n.toString()` for a non-negative integer. -/
def decimalChars (n : Nat) : List Char :=
  if n = 0 then ['0'] else (digitCharsRev n n).reverse

/-- JavaScript `s.slice(-k)`: the last `k` characters (the whole string if
it is shorter). -/
def sliceLast (cs : List Char) (k : Nat) : List Char :=
  cs.drop (cs.length - k)

/-- JavaScript `s.padStart(k, '0')`. -/
def padStartZero (cs : List Char) (k : Nat) : List Char :=
  List.replicate (k - cs.length) '0' ++ cs

/-- `generateOrderNumber`: `` `ORD-${Date.now().toString().slice(-6)}${random}` ``
where `random = Math.floor(Math.random() * 1000).toString().padStart(3, '0')`.
`timestamp` is `Date.now()` and `random` the drawn value in `0..999`. -/
def generateOrderNumber (timestamp : Nat) (random : Nat) : String :=
  "ORD-" ++ String.mk (sliceLast (decimalChars timestamp) 6)
        ++ String.mk (padStartZero (decimalChars random) 3)

/-! ## IEEE-754 binary64 model

The creation handler computes its amounts in JavaScript numbers, i.e.
IEEE-754 binary64 with round-to-nearest, ties-to-even.  For values in the
normal range (every currency amount in this workflow), a binary64 value is
exactly a rational `m * 2 ^ e` with `m < 2 ^ 53`, and each arithmetic
operation is the exact rational result rounded back to that form.  The
rounding is embedded below on exact rationals. -/

/-- Multiply the mantissa up by 2 (decreasing the exponent) until it
reaches `2 ^ 52`.  Fuel-driven so that it is structurally recursive; 1200
steps cover the entire binary64 exponent range. -/
def scaleUp : Nat → ℚ × ℤ → ℚ × ℤ
  | 0, s => s
  | fuel + 1, (m, e) =>
    if m < 2 ^ 52 then scaleUp fuel (m * 2, e - 1) else (m, e)

/-- Divide the mantissa down by 2 (increasing the exponent) until it is
below `2 ^ 53`. -/
def scaleDown : Nat → ℚ × ℤ → ℚ × ℤ
  | 0, s => s
  | fuel + 1, (m, e) =>
    if 2 ^ 53 ≤ m then scaleDown fuel (m / 2, e + 1) else (m, e)

/-- Round a positive rational to the nearest binary64 value
(ties-to-even), assuming the normal range: normalise to a mantissa in
`[2 ^ 52, 2 ^ 53)`, round it to an integer with ties going to the even
neighbour, and scale back. -/
def fp64pos (q : ℚ) : ℚ :=
  let s := scaleDown 1200 (scaleUp 1200 (q, 0))
  let f : ℤ := Rat.floor s.1
  let r : ℚ := s.1 - (f : ℚ)
  let m : ℤ :=
    if r < 1 / 2 then f
    else if 1 / 2 < r then f + 1
    else if f % 2 = 0 then f else f + 1
  (m : ℚ) * (2 : ℚ) ^ s.2

/-- Round an exact rational to the nearest binary64 value (normal range).
This is what `parseFloat` does to a decimal numeral and what each JS
arithmetic operation does to its exact result. -/
def fp64 (q : ℚ) : ℚ :=
  if q = 0 then 0
  else if 0 < q then fp64pos q
  else -(fp64pos (-q))

/-- JS `+` on numbers: exact sum, rounded. -/
def jsAdd (x y : ℚ) : ℚ := fp64 (x + y)

/-- JS `*` on numbers: exact product, rounded. -/
def jsMul (x y : ℚ) : ℚ := fp64 (x * y)

/-- The handler's accumulation
`totalAmount += parseFloat(foodItem.price) * item.quantity` under JS
number semantics, over `(decimal price, quantity)` pairs.  (An integer
quantity below `2 ^ 53` is itself exactly representable.) -/
def jsSubtotal (lines : List (ℚ × Nat)) : ℚ :=
  lines.foldl (fun acc pr => jsAdd acc (jsMul (fp64 pr.1) (pr.2 : ℚ))) 0

/-- `const taxAmount = totalAmount * 0.05` — the literal `0.05` is itself
the binary64 nearest to 1/20. -/
def jsTaxAmount (subtotal : ℚ) : ℚ := jsMul subtotal (fp64 (5 / 100))

/-- `const finalAmount = totalAmount + deliveryFee + taxAmount` under JS
number semantics (left-associated), with
`deliveryFee = parseFloat(restaurant.delivery_fee)`. -/
def jsFinalAmount (lines : List (ℚ × Nat)) (fee : ℚ) : ℚ :=
  jsAdd (jsAdd (jsSubtotal lines) (fp64 fee)) (jsTaxAmount (jsSubtotal lines))

/-- The exact-decimal subtotal `Σ unit_price_i * quantity_i` the spec
prescribes. -/
def exactSubtotal (lines : List (ℚ × Nat)) : ℚ :=
  (lines.map fun pr => pr.1 * (pr.2 : ℚ)).sum

/-- The exact-decimal final amount
`subtotal + deliveryFee + subtotal * 5%` the spec prescribes. -/
def exactFinalAmount (lines : List (ℚ × Nat)) (fee : ℚ) : ℚ :=
  exactSubtotal lines + fee + exactSubtotal lines * (5 / 100)

/-! ## Derived quantities used to state the theorems -/

/-- Total quantity a list of `(food item id, quantity)` pairs orders for
the item `i`. -/
def pairQtyFor : List (Nat × Nat) → Nat → Nat
  | [], _ => 0
  | p :: ps, i => (if p.1 == i then p.2 else 0) + pairQtyFor ps i

/-- Total quantity the resolved lines order for the food item `i`
(a request may name the same item on several lines; each line's UPDATE
adds its own quantity). -/
def sumQtyFor (its : List ResolvedItem) (i : Nat) : Nat :=
  pairQtyFor (its.map fun it => (it.food_item_id, it.quantity)) i

/-- Total quantity the request's lines order for the food item `i`. -/
def reqQtyFor (its : List ItemReq) (i : Nat) : Nat :=
  pairQtyFor (its.map fun it => (it.food_item_id, it.quantity)) i

/-! ## Concrete sample data (used by the witness theorems)

The spec's happy-path scenario: a restaurant with delivery fee $2.50 and
two menu items at $10.00 and $5.00, customer 7 ordering quantities 2
and 1. -/

def sampleRestaurant : Restaurant :=
  { id := 1, cook_id := 5, is_active := true, delivery_fee := 5 / 2 }

def otherRestaurant : Restaurant :=
  { id := 2, cook_id := 6, is_active := true, delivery_fee := 3 }

def sampleItems : List FoodItem :=
  [{ id := 10, restaurant_id := 1, name := "itemA", price := 10,
     is_available := true, total_orders := 0 },
   { id := 11, restaurant_id := 1, name := "itemB", price := 5,
     is_available := true, total_orders := 0 },
   { id := 20, restaurant_id := 2, name := "itemC", price := 7,
     is_available := true, total_orders := 4 }]

def sampleDB : DB :=
  { restaurants := [sampleRestaurant, otherRestaurant]
    food_items := sampleItems
    orders := []
    order_items := []
    cart_items :=
      [{ customer_id := 7, food_item_id := 10, quantity := 2 },
       { customer_id := 7, food_item_id := 20, quantity := 1 },
       { customer_id := 8, food_item_id := 11, quantity := 1 }] }

def sampleRequest : OrderRequest :=
  { restaurant_id := 1
    items := [{ food_item_id := 10, quantity := 2 },
              { food_item_id := 11, quantity := 1 }]
    payment_method := "cash" }

/-- A persisted order (restaurant 1, customer 7) that has already been
delivered, for the status-transition witnesses. -/
def deliveredOrder : Order :=
  { id := 1, customer_id := 7, restaurant_id := 1
    order_number := "ORD-000000222"
    status := "delivered", delivered_at := some 99
    total_amount := 25, delivery_fee := 5 / 2, tax_amount := 5 / 4
    final_amount := 115 / 4, payment_method := "cash" }

def statusDB : DB :=
  { sampleDB with orders := [deliveredOrder] }

/-- `sampleDB` with an order already holding the order number
`"ORD-000000111"`, so that a creation drawing that number hits the
UNIQUE-key collision. -/
def collisionDB : DB :=
  { sampleDB with
    orders := [{ deliveredOrder with order_number := "ORD-000000111" }] }

/-! ## Helper lemmas -/

theorem sumQtyFor_cons (it : ResolvedItem) (its : List ResolvedItem) (i : Nat) :
    sumQtyFor (it :: its) i =
      (if it.food_item_id == i then it.quantity else 0) + sumQtyFor its i := rfl

/-- Everything the validation loop guarantees about a successful
resolution: one output line per input line, ids and quantities copied
through, and each line carrying the looked-up catalog row's price as its
`unit_price` with `total_price = unit_price * quantity`. -/
theorem resolveItems_spec (fis : List FoodItem) (rid : Nat) :
    ∀ (items : List ItemReq) (res : List ResolvedItem),
      resolveItems fis rid items = Except.ok res →
      res.length = items.length ∧
      (res.map fun it => (it.food_item_id, it.quantity)) =
        (items.map fun it => (it.food_item_id, it.quantity)) ∧
      ∀ it ∈ res, ∃ fi : FoodItem,
        fis.find? (fun f => f.id == it.food_item_id && f.restaurant_id == rid)
          = some fi ∧
        fi.is_available = true ∧
        it.unit_price = fi.price ∧
        it.total_price = it.unit_price * (it.quantity : ℚ) := by
  intro items
  induction items with
  | nil =>
    intro res h
    simp only [resolveItems, Except.ok.injEq] at h
    subst h
    simp
  | cons item rest ih =>
    intro res h
    simp only [resolveItems] at h
    split at h
    · exact absurd h (by simp)
    · next fi hf =>
      split at h
      · exact absurd h (by simp)
      · next hav =>
        split at h
        · exact absurd h (by simp)
        · next tail htail =>
          simp only [Except.ok.injEq] at h
          subst h
          obtain ⟨h1, h2, h3⟩ := ih tail htail
          refine ⟨by simp [h1], by simp [h2], ?_⟩
          intro it hit
          rcases List.mem_cons.mp hit with hhd | htl
          · subst hhd
            refine ⟨fi, hf, ?_, rfl, rfl⟩
            simpa using hav
          · exact h3 it htl

/-- The per-line counter updates amount to adding, to every catalog row,
the total quantity the resolved lines order for that row's id. -/
theorem incrementCounts_eq :
    ∀ (its : List ResolvedItem) (fis : List FoodItem),
      incrementCounts fis its =
        fis.map fun fi =>
          { fi with total_orders := fi.total_orders + sumQtyFor its fi.id } := by
  intro its
  induction its with
  | nil =>
    intro fis
    have hfun : (fun fi : FoodItem =>
        { fi with total_orders := fi.total_orders + sumQtyFor [] fi.id }) =
        fun fi => fi := by
      funext fi
      rfl
    rw [incrementCounts, hfun, List.map_id']
  | cons it its ih =>
    intro fis
    rw [incrementCounts, ih, List.map_map]
    have hfun : ((fun fi : FoodItem =>
          { fi with total_orders := fi.total_orders + sumQtyFor its fi.id }) ∘
        (fun fi : FoodItem =>
          if fi.id == it.food_item_id then
            { fi with total_orders := fi.total_orders + it.quantity }
          else fi)) =
        fun fi : FoodItem =>
          { fi with total_orders := fi.total_orders + sumQtyFor (it :: its) fi.id } := by
      funext fi
      by_cases h : fi.id = it.food_item_id
      · simp [Function.comp, h, sumQtyFor_cons, Nat.add_assoc]
      · have h' : ¬(it.food_item_id = fi.id) := fun hx => h hx.symm
        simp [Function.comp, h, h', sumQtyFor_cons]
    rw [hfun]

/-- Mapping a field-preserving function over a table does not change an
`any`-style WHERE clause that only reads the preserved fields. -/
theorem any_map_pres {α : Type} (f : α → α) (p : α → Bool)
    (hp : ∀ x, p (f x) = p x) :
    ∀ l : List α, (l.map f).any p = l.any p := by
  intro l
  induction l with
  | nil => rfl
  | cons a l ih => simp [hp, ih]

/-- Mapping an id-preserving function over a table commutes with a
`find?`-style point lookup. -/
theorem find?_map_pres {α : Type} (f : α → α) (p : α → Bool)
    (hp : ∀ x, p (f x) = p x) :
    ∀ l : List α, (l.map f).find? p = (l.find? p).map f := by
  intro l
  induction l with
  | nil => rfl
  | cons a l ih =>
    simp only [List.map_cons, List.find?, hp a]
    cases hpa : p a <;> simp [ih]

/-- With enough fuel (`n` itself suffices), the structural digit-char
extraction agrees with Mathlib's `Nat.digits`. -/
theorem digitCharsRev_eq_digits :
    ∀ (fuel n : Nat), n ≤ fuel →
      digitCharsRev fuel n = (Nat.digits 10 n).map Nat.digitChar := by
  intro fuel
  induction fuel with
  | zero =>
    intro n hn
    interval_cases n
    simp [digitCharsRev]
  | succ fuel ih =>
    intro n hn
    rw [digitCharsRev]
    by_cases h0 : n = 0
    · subst h0
      simp
    · rw [if_neg h0]
      rw [Nat.digits_def' (by norm_num : (1 : ℕ) < 10) (Nat.pos_of_ne_zero h0)]
      rw [List.map_cons]
      rw [ih (n / 10) ?_]
      have := Nat.div_lt_self (Nat.pos_of_ne_zero h0) (by norm_num : (1:ℕ) < 10)
      omega

theorem decimalChars_eq (n : Nat) :
    decimalChars n =
      if n = 0 then ['0']
      else ((Nat.digits 10 n).map Nat.digitChar).reverse := by
  rw [decimalChars]
  by_cases h0 : n = 0
  · rw [if_pos h0, if_pos h0]
  · rw [if_neg h0, if_neg h0, digitCharsRev_eq_digits n n le_rfl]

theorem decimalChars_all_digits (n : Nat) :
    ∀ c ∈ decimalChars n, c.isDigit = true := by
  intro c hc
  rw [decimalChars_eq] at hc
  split at hc
  · simp at hc
    subst hc
    rfl
  · simp only [List.mem_reverse, List.mem_map] at hc
    obtain ⟨d, hd, rfl⟩ := hc
    have hlt : d < 10 := Nat.digits_lt_base (by norm_num) hd
    have hall : ∀ d' < 10, (Nat.digitChar d').isDigit = true := by decide
    exact hall d hlt

theorem decimalChars_length_ge_six {t : Nat} (ht : 100000 ≤ t) :
    6 ≤ (decimalChars t).length := by
  have ht0 : t ≠ 0 := by omega
  rw [decimalChars_eq, if_neg ht0]
  rw [List.length_reverse, List.length_map]
  rw [Nat.digits_len 10 t (by norm_num) ht0]
  have h5 : 5 ≤ Nat.log 10 t := by
    rw [← Nat.pow_le_iff_le_log (by norm_num) ht0]
    norm_num
    omega
  omega

theorem decimalChars_length_le_three {r : Nat} (hr : r < 1000) :
    (decimalChars r).length ≤ 3 := by
  by_cases h0 : r = 0
  · subst h0
    norm_num [decimalChars]
  · rw [decimalChars_eq, if_neg h0]
    rw [List.length_reverse, List.length_map]
    rw [Nat.digits_len 10 r (by norm_num) h0]
    have : Nat.log 10 r < 3 := Nat.log_lt_of_lt_pow h0 (by norm_num; omega)
    omega

/-! ## Claim theorems -/

set_option maxRecDepth 100000

/-- C10: for any realistic millisecond timestamp (at least six decimal
digits) and a drawn random value below 1000, the generated order number is
the literal `ORD-` followed by exactly nine decimal digit characters — the
last six digits of the timestamp then the three-digit zero-padded random —
so it has length 13; and for a fixed timestamp, at most 1000 distinct
order numbers can be generated. -/
theorem order_number_format (t r : Nat) (ht : 100000 ≤ t) (hr : r < 1000) :
    (generateOrderNumber t r).length = 13 ∧
    (∃ ds : List Char, generateOrderNumber t r = "ORD-" ++ String.mk ds ∧
      ds.length = 9 ∧ ∀ c ∈ ds, c.isDigit = true) ∧
    (∃ S : Finset String, S.card ≤ 1000 ∧
      ∀ r' : Nat, r' < 1000 → generateOrderNumber t r' ∈ S) := by
  have hslice : (sliceLast (decimalChars t) 6).length = 6 := by
    have := decimalChars_length_ge_six ht
    rw [sliceLast, List.length_drop]
    omega
  have hpad : (padStartZero (decimalChars r) 3).length = 3 := by
    have := decimalChars_length_le_three hr
    rw [padStartZero, List.length_append, List.length_replicate]
    omega
  have hshape : generateOrderNumber t r =
      String.mk ((['O', 'R', 'D', '-'] ++ sliceLast (decimalChars t) 6) ++
        padStartZero (decimalChars r) 3) := rfl
  refine ⟨?_, ?_, ?_⟩
  · rw [hshape]
    show ((['O', 'R', 'D', '-'] ++ sliceLast (decimalChars t) 6) ++
        padStartZero (decimalChars r) 3).length = 13
    simp only [List.length_append, hslice, hpad]
    rfl
  · refine ⟨sliceLast (decimalChars t) 6 ++ padStartZero (decimalChars r) 3,
      ?_, ?_, ?_⟩
    · rw [hshape]
      exact congrArg String.mk (List.append_assoc _ _ _)
    · rw [List.length_append, hslice, hpad]
    · intro c hc
      rcases List.mem_append.mp hc with h | h
      · exact decimalChars_all_digits t c (List.mem_of_mem_drop h)
      · rcases List.mem_append.mp h with h' | h'
        · have : c = '0' := (List.eq_of_mem_replicate h')
          subst this
          rfl
        · exact decimalChars_all_digits r c h'
  · refine ⟨(Finset.range 1000).image fun r' => generateOrderNumber t r', ?_, ?_⟩
    · exact le_trans Finset.card_image_le (le_of_eq (Finset.card_range 1000))
    · intro r' hr'
      exact Finset.mem_image_of_mem _ (Finset.mem_range.mpr hr')

/-- C10 witness: the generator evaluated at the concrete timestamp
1760000000000 and random draw 7. -/
theorem order_number_format_witness :
    (generateOrderNumber 1760000000000 7).length = 13 ∧
    generateOrderNumber 1760000000000 7 = "ORD-000000007" :=
  ⟨(order_number_format 1760000000000 7 (by norm_num) (by norm_num)).1,
   by decide⟩

/-- C3 counterexample: the handler's arithmetic is IEEE-754 binary64
(`parseFloat` and JS numbers), not fixed-point decimal: already for a
single line of quantity 3 at price 0.10 and delivery fee 0 the computed
final amount differs from the exact decimal value 0.315. -/
theorem pricing_exact_decimal_counterexample :
    jsFinalAmount [((1 : ℚ) / 10, 3)] 0 ≠
      exactFinalAmount [((1 : ℚ) / 10, 3)] 0 := by
  intro h
  have h2 : jsFinalAmount [((1 : ℚ) / 10, 3)] 0 = 2837267765243413 / 2 ^ 53 := by
    with_unfolding_all rfl
  rw [h2] at h
  norm_num [exactFinalAmount, exactSubtotal] at h

/-- C3 amended: the pricing computation runs in binary64 floating point;
it is a deterministic pure function, but produces binary drift rather than
exact decimal results: 3 × 0.10 accumulates to
5404319552844596/2^54 (= 0.30000000000000004...), not 0.30 — while the
spec's happy-path figures (2 × $10.00 + 1 × $5.00, fee $2.50) happen to be
exactly representable and come out as the exact 28.75 even in binary64. -/
theorem pricing_binary_float_drift :
    jsSubtotal [((1 : ℚ) / 10, 3)] = 1351079888211149 / 2 ^ 52 ∧
    (3 : ℚ) / 10 < 1351079888211149 / 2 ^ 52 ∧
    jsFinalAmount [((10 : ℚ), 2), ((5 : ℚ), 1)] (5 / 2) = 115 / 4 :=
  ⟨by with_unfolding_all rfl, by norm_num, by with_unfolding_all rfl⟩

/-- Unfolding lemma: when every validation step passes and the generated
order number is fresh, `createOrder` commits exactly the four classes of
writes, and the response depends only on whether the post-commit
notification emit survives. -/
theorem createOrder_commit (db : DB) (cid : Nat) (req : OrderRequest)
    (nums : List String) (now : Nat) (emitOk : Bool)
    (restaurant : Restaurant) (res : List ResolvedItem)
    (hv : validateOrderRequest req = true)
    (hr : db.restaurants.find?
        (fun r => r.id == req.restaurant_id && r.is_active) = some restaurant)
    (hi : resolveItems db.food_items req.restaurant_id req.items =
        Except.ok res)
    (hn : (db.orders.any fun o => o.order_number == nums.headD "") = false) :
    createOrder db cid req nums now emitOk =
      ((if emitOk then Except.ok (nextOrderId db)
        else Except.error ⟨500, "dispatch threw after commit"⟩),
       { db with
         orders := db.orders ++
           [{ id := nextOrderId db
              customer_id := cid
              restaurant_id := req.restaurant_id
              order_number := nums.headD ""
              total_amount := (res.map (·.total_price)).sum
              delivery_fee := restaurant.delivery_fee
              tax_amount := (res.map (·.total_price)).sum * (5 / 100)
              final_amount := (res.map (·.total_price)).sum +
                restaurant.delivery_fee +
                (res.map (·.total_price)).sum * (5 / 100)
              payment_method := req.payment_method
              delivery_address := req.delivery_address
              special_instructions := req.special_instructions
              estimated_delivery_time := now + 45 * 60000 }]
         order_items := db.order_items ++ res.map (fun it =>
           { order_id := nextOrderId db
             food_item_id := it.food_item_id
             quantity := it.quantity
             unit_price := it.unit_price
             total_price := it.total_price
             special_requests := it.special_requests })
         food_items := incrementCounts db.food_items res
         cart_items := clearCart db.cart_items
           (incrementCounts db.food_items res) cid req.restaurant_id }) := by
  rw [createOrder]
  simp only [hv, Bool.not_true, Bool.false_eq_true, if_false]
  rw [createOrderCore]
  simp only [hr, hi, hn, Bool.false_eq_true, if_false]
  cases emitOk <;> rfl

/-- Unfolding lemma: when some validation step fails (or the order number
collides), `createOrder` surfaces an error and returns the store
unchanged — the rollback path. -/
theorem createOrder_fails (db : DB) (cid : Nat) (req : OrderRequest)
    (nums : List String) (now : Nat) (emitOk : Bool)
    (hnp : creationPersists db req nums = false) :
    (createOrder db cid req nums now emitOk).2 = db ∧
    ∃ e : AppError,
      (createOrder db cid req nums now emitOk).1 = Except.error e := by
  cases hv : validateOrderRequest req with
  | false =>
    rw [createOrder]
    simp only [hv, Bool.not_false, if_true]
    exact ⟨trivial, ⟨400, "Validation failed"⟩, rfl⟩
  | true =>
    rw [createOrder]
    simp only [hv, Bool.not_true, Bool.false_eq_true, if_false]
    rw [createOrderCore]
    cases hr : db.restaurants.find?
        (fun r => r.id == req.restaurant_id && r.is_active) with
    | none => exact ⟨rfl, ⟨404, "Restaurant not found or inactive"⟩, rfl⟩
    | some restaurant =>
      cases hi : resolveItems db.food_items req.restaurant_id req.items with
      | error e => exact ⟨rfl, e, rfl⟩
      | ok res =>
        cases hn : db.orders.any fun o => o.order_number == nums.headD "" with
        | true =>
          simp only [hn, if_true]
          exact ⟨trivial, ⟨400, "Duplicate field value entered"⟩, rfl⟩
        | false =>
          exfalso
          unfold creationPersists at hnp
          rw [hv, hr, hi, hn] at hnp
          simp [Except.toOption] at hnp

/-- C4: visibility and transition authorization.  For an order `X`:
a customer who did not place `X` is denied on read; a cook whose
restaurant (or lack of one) does not match `X`'s restaurant is denied on
both read and transition; a customer is always denied on transition; and
a transition succeeds only for an administrator or the cook operating
`X`'s restaurant. -/
theorem order_access_control (db : DB) (user : User) (oid : Nat)
    (order : Order) (target : String) (now : Nat)
    (hfind : db.orders.find? (fun o => o.id == oid) = some order)
    (htarget : validStatuses.contains target = true) :
    (user.user_type = "customer" → order.customer_id ≠ user.id →
      getOrder db user oid =
        .error ⟨403, "Unauthorized to view this order"⟩) ∧
    (user.user_type = "cook" →
      db.restaurants.find? (fun r => r.cook_id == user.id) = none →
      getOrder db user oid =
          .error ⟨403, "Unauthorized to view this order"⟩ ∧
        updateOrderStatus db user oid target now =
          (.error ⟨403, "Unauthorized to update this order"⟩, db)) ∧
    (∀ r : Restaurant, user.user_type = "cook" →
      db.restaurants.find? (fun r' => r'.cook_id == user.id) = some r →
      r.id ≠ order.restaurant_id →
      getOrder db user oid =
          .error ⟨403, "Unauthorized to view this order"⟩ ∧
        updateOrderStatus db user oid target now =
          (.error ⟨403, "Unauthorized to update this order"⟩, db)) ∧
    (user.user_type = "customer" →
      updateOrderStatus db user oid target now =
        (.error ⟨403, "Insufficient permissions"⟩, db)) ∧
    ((updateOrderStatus db user oid target now).1 = .ok () →
      user.user_type = "admin" ∨
      (user.user_type = "cook" ∧ ∃ r : Restaurant,
        db.restaurants.find? (fun r' => r'.cook_id == user.id) = some r ∧
        r.id = order.restaurant_id)) := by
  have htm : target ∈ validStatuses := by simpa using htarget
  refine ⟨?_, ?_, ?_, ?_, ?_⟩
  · intro hc hne
    simp [getOrder, hfind, hc, hne]
  · intro hc hro
    constructor
    · simp [getOrder, hfind, hc, hro]
    · simp [updateOrderStatus, htm, hfind, hc, hro]
  · intro r hc hro hne
    have hne' : order.restaurant_id ≠ r.id := fun h => hne h.symm
    constructor
    · simp [getOrder, hfind, hc, hro, hne']
    · simp [updateOrderStatus, htm, hfind, hc, hro, hne']
  · intro hc
    simp [updateOrderStatus, htm, hfind, hc]
  · intro hok
    by_cases hcook : user.user_type = "cook"
    · right
      refine ⟨hcook, ?_⟩
      cases hro : db.restaurants.find? (fun r' => r'.cook_id == user.id) with
      | none =>
        rw [updateOrderStatus] at hok
        simp [htm, hfind, hcook, hro] at hok
      | some r =>
        by_cases hr : order.restaurant_id = r.id
        · exact ⟨r, rfl, hr.symm⟩
        · rw [updateOrderStatus] at hok
          simp [htm, hfind, hcook, hro, hr] at hok
    · by_cases hadmin : user.user_type = "admin"
      · exact Or.inl hadmin
      · rw [updateOrderStatus] at hok
        simp [htm, hfind, hcook, hadmin] at hok

/-- C4 witness: cook 6 operates restaurant 2, but `deliveredOrder`
belongs to restaurant 1 — both the read and the transition are rejected
with 403. -/
theorem order_access_control_witness :
    getOrder statusDB ⟨6, "cook"⟩ 1 =
        .error ⟨403, "Unauthorized to view this order"⟩ ∧
      updateOrderStatus statusDB ⟨6, "cook"⟩ 1 "confirmed" 0 =
        (.error ⟨403, "Unauthorized to update this order"⟩, statusDB) :=
  (order_access_control statusDB ⟨6, "cook"⟩ 1 deliveredOrder "confirmed" 0
      (by with_unfolding_all rfl) (by decide)).2.2.1
    otherRestaurant rfl (by with_unfolding_all rfl) (by decide)

/-- C5: the transition operation accepts any target in the status ENUM
regardless of the order's current status; the target becomes the stored
status, a transition to `delivered` stamps `delivered_at` with the current
time, and a transition to any other status leaves `delivered_at`
untouched. -/
theorem status_transition_unrestricted (db : DB) (user : User) (oid : Nat)
    (order : Order) (target : String) (now : Nat)
    (hfind : db.orders.find? (fun o => o.id == oid) = some order)
    (htarget : validStatuses.contains target = true)
    (hadmin : user.user_type = "admin") :
    ∃ db' : DB, updateOrderStatus db user oid target now = (.ok (), db') ∧
      ∃ o' : Order, db'.orders.find? (fun o => o.id == oid) = some o' ∧
        o'.status = target ∧
        (target = "delivered" → o'.delivered_at = some now) ∧
        (target ≠ "delivered" → o'.delivered_at = order.delivered_at) := by
  have hpres : ∀ o : Order,
      (((fun o : Order =>
        if o.id == oid then
          { o with
            status := target
            delivered_at :=
              if target == "delivered" then some now else o.delivered_at }
        else o) o).id == oid) = (o.id == oid) := by
    intro o
    by_cases h : o.id = oid <;> simp [h]
  have htm : target ∈ validStatuses := by simpa using htarget
  have horder := List.find?_some hfind
  refine ⟨{ db with
      orders := db.orders.map fun o =>
        if o.id == oid then
          { o with
            status := target
            delivered_at :=
              if target == "delivered" then some now else o.delivered_at }
        else o }, ?_, ?_⟩
  · simp [updateOrderStatus, htm, hfind, hadmin]
  · refine ⟨{ order with
        status := target
        delivered_at :=
          if target == "delivered" then some now else order.delivered_at },
      ?_, rfl, ?_, ?_⟩
    · rw [show ∀ X : List Order, ({ db with orders := X } : DB).orders = X
          from fun _ => rfl]
      rw [find?_map_pres _ _ hpres, hfind, Option.map_some']
      simp [horder]
    · intro hdel
      simp [hdel]
    · intro hdel
      simp [hdel]

/-- C5 witness: the administrator moves the already-delivered
`deliveredOrder` to `cancelled`; the call succeeds, the stored status
becomes `cancelled`, and the delivered timestamp (99) is untouched. -/
theorem status_transition_unrestricted_witness :
    ∃ db' : DB,
      updateOrderStatus statusDB ⟨9, "admin"⟩ 1 "cancelled" 123 =
        (.ok (), db') ∧
      ∃ o' : Order, db'.orders.find? (fun o => o.id == 1) = some o' ∧
        o'.status = "cancelled" ∧ o'.delivered_at = some 99 := by
  obtain ⟨db', h1, o', h2, h3, _, h5⟩ :=
    status_transition_unrestricted statusDB ⟨9, "admin"⟩ 1 deliveredOrder
      "cancelled" 123 (by with_unfolding_all rfl) (by decide) rfl
  exact ⟨db', h1, o', h2, h3, h5 (by decide)⟩

/-- C1: order creation is all-or-nothing.  If any validation step fails
(restaurant absent/inactive, item missing, item unavailable, malformed
request) or the order-row insert fails on a duplicate number, the caller
gets an error and the visible store is exactly the pre-call store: no
order row, no line rows, no counter increment, no cart deletion.  If
every step passes, the committed store shows all four classes of writes
together: the appended order row (status `pending`), one line row per
requested line, every counter raised by the ordered quantity, and the
customer's cart rows for that restaurant gone. -/
theorem order_creation_all_or_nothing (db : DB) (cid : Nat)
    (req : OrderRequest) (nums : List String) (now : Nat) (emitOk : Bool) :
    (creationPersists db req nums = false →
      (createOrder db cid req nums now emitOk).2 = db ∧
      ∃ e : AppError,
        (createOrder db cid req nums now emitOk).1 = Except.error e) ∧
    (creationPersists db req nums = true →
      (∃ o : Order,
        (createOrder db cid req nums now emitOk).2.orders =
          db.orders ++ [o] ∧
        o.customer_id = cid ∧ o.restaurant_id = req.restaurant_id ∧
        o.status = "pending") ∧
      (∃ ls : List OrderItem,
        (createOrder db cid req nums now emitOk).2.order_items =
          db.order_items ++ ls ∧
        ls.length = req.items.length) ∧
      ((createOrder db cid req nums now emitOk).2.food_items =
        db.food_items.map fun fi =>
          { fi with
            total_orders := fi.total_orders + reqQtyFor req.items fi.id }) ∧
      (∀ ci ∈ db.cart_items, ci.customer_id = cid →
        (db.food_items.any fun fi =>
          fi.id == ci.food_item_id &&
          fi.restaurant_id == req.restaurant_id) = true →
        ci ∉ (createOrder db cid req nums now emitOk).2.cart_items)) := by
  constructor
  · exact createOrder_fails db cid req nums now emitOk
  · intro hp
    unfold creationPersists at hp
    simp only [Bool.and_eq_true] at hp
    obtain ⟨⟨⟨hv, hrs⟩, his⟩, hnn⟩ := hp
    rw [Option.isSome_iff_exists] at hrs
    obtain ⟨restaurant, hr⟩ := hrs
    have hn : (db.orders.any fun o => o.order_number == nums.headD "")
        = false := by simpa using hnn
    cases hi : resolveItems db.food_items req.restaurant_id req.items with
    | error e =>
      rw [hi] at his
      simp [Except.toOption] at his
    | ok res =>
      have hspec := resolveItems_spec db.food_items req.restaurant_id
        req.items res hi
      have hcommit := createOrder_commit db cid req nums now emitOk
        restaurant res hv hr hi hn
      rw [hcommit]
      refine ⟨⟨_, rfl, rfl, rfl, rfl⟩, ⟨_, rfl, ?_⟩, ?_, ?_⟩
      · rw [List.length_map, hspec.1]
      · show incrementCounts db.food_items res = _
        rw [incrementCounts_eq]
        refine List.map_congr_left fun fi _ => ?_
        have hq : sumQtyFor res fi.id = reqQtyFor req.items fi.id := by
          unfold sumQtyFor reqQtyFor
          rw [hspec.2.1]
        rw [hq]
      · intro ci hci hcid hany hmem
        show False
        rw [show ∀ a b c d e : DB → _, (DB.mk (a _) (b _) (c _) (d _) (e _)).cart_items = e _ from fun _ _ _ _ _ => rfl] at hmem
        rw [clearCart] at hmem
        have hpred := (List.mem_filter.mp hmem).2
        have hanyup : ((incrementCounts db.food_items res).any fun fi =>
            fi.id == ci.food_item_id &&
            fi.restaurant_id == req.restaurant_id) = true := by
          rw [incrementCounts_eq]
          rw [any_map_pres
            (fun fi : FoodItem =>
              { fi with total_orders := fi.total_orders + sumQtyFor res fi.id })
            (fun fi => fi.id == ci.food_item_id &&
              fi.restaurant_id == req.restaurant_id)
            (fun fi => rfl)]
          exact hany
        simp [hcid, hanyup] at hpred

/-- C1 witness: the happy-path creation on the sample store commits (all
writes land), and the same request against `collisionDB` with a colliding
generated number changes nothing and surfaces an error. -/
theorem order_creation_all_or_nothing_witness :
    ((∃ o : Order,
        (createOrder sampleDB 7 sampleRequest ["ORD-000000333"] 0 true).2.orders =
          sampleDB.orders ++ [o] ∧
        o.customer_id = 7 ∧ o.restaurant_id = sampleRequest.restaurant_id ∧
        o.status = "pending") ∧
      (∃ ls : List OrderItem,
        (createOrder sampleDB 7 sampleRequest ["ORD-000000333"] 0 true).2.order_items =
          sampleDB.order_items ++ ls ∧
        ls.length = sampleRequest.items.length) ∧
      (((createOrder sampleDB 7 sampleRequest ["ORD-000000333"] 0 true).2.food_items.map
          fun fi => (fi.id, fi.total_orders)) = [(10, 2), (11, 1), (20, 4)]) ∧
      ((⟨7, 10, 2⟩ : CartItem) ∉
        (createOrder sampleDB 7 sampleRequest ["ORD-000000333"] 0 true).2.cart_items)) ∧
    ((createOrder collisionDB 7 sampleRequest ["ORD-000000111"] 0 true).2 =
        collisionDB ∧
      ∃ e : AppError,
        (createOrder collisionDB 7 sampleRequest ["ORD-000000111"] 0 true).1 =
          Except.error e) := by
  obtain ⟨hord, hlines, _, hcart⟩ :=
    (order_creation_all_or_nothing sampleDB 7 sampleRequest
      ["ORD-000000333"] 0 true).2 (by with_unfolding_all rfl)
  exact ⟨⟨hord, hlines, by with_unfolding_all rfl,
      hcart ⟨7, 10, 2⟩ (by decide) rfl (by decide)⟩,
    (order_creation_all_or_nothing collisionDB 7 sampleRequest
      ["ORD-000000111"] 0 true).1 (by with_unfolding_all rfl)⟩

/-- C2: for every request whose lines resolve, the created order's
monetary breakdown is `total_amount = Σ unit_price_i * quantity_i`,
`tax_amount = 5% of total_amount`,
`final_amount = total_amount + delivery_fee + tax_amount`, with the
delivery fee copied from the restaurant row, a zero discount, and status
`pending`. -/
theorem order_pricing_breakdown (db : DB) (cid : Nat) (req : OrderRequest)
    (nums : List String) (now : Nat) (emitOk : Bool)
    (restaurant : Restaurant) (res : List ResolvedItem)
    (hv : validateOrderRequest req = true)
    (hr : db.restaurants.find?
        (fun r => r.id == req.restaurant_id && r.is_active) = some restaurant)
    (hi : resolveItems db.food_items req.restaurant_id req.items =
        Except.ok res)
    (hn : (db.orders.any fun o => o.order_number == nums.headD "") = false) :
    ∃ o : Order,
      (createOrder db cid req nums now emitOk).2.orders = db.orders ++ [o] ∧
      o.total_amount =
        (res.map fun it => it.unit_price * (it.quantity : ℚ)).sum ∧
      o.tax_amount = o.total_amount * (5 / 100) ∧
      o.delivery_fee = restaurant.delivery_fee ∧
      o.final_amount = o.total_amount + o.delivery_fee + o.tax_amount ∧
      o.discount_amount = 0 ∧
      o.status = "pending" := by
  have hcommit := createOrder_commit db cid req nums now emitOk
    restaurant res hv hr hi hn
  rw [hcommit]
  have hmap : (res.map fun x => x.total_price) =
      (res.map fun it => it.unit_price * (it.quantity : ℚ)) :=
    List.map_congr_left fun it hit => by
      obtain ⟨fi, _, _, _, htp⟩ := (resolveItems_spec _ _ _ _ hi).2.2 it hit
      exact htp
  exact ⟨_, rfl, congrArg List.sum hmap, rfl, rfl, rfl, rfl, rfl⟩

/-- C2 witness: the spec's happy-path scenario — quantities 2 and 1 at
$10.00 and $5.00 with delivery fee $2.50 — yields subtotal 25, tax 1.25,
final 28.75 and a `pending` order. -/
theorem order_pricing_breakdown_witness :
    ∃ o : Order,
      (createOrder sampleDB 7 sampleRequest ["ORD-000000333"] 0 true).2.orders =
        sampleDB.orders ++ [o] ∧
      o.total_amount = 25 ∧
      o.tax_amount = 5 / 4 ∧
      o.delivery_fee = 5 / 2 ∧
      o.final_amount = 115 / 4 ∧
      o.discount_amount = 0 ∧
      o.status = "pending" := by
  obtain ⟨o, h1, h2, h3, h4, h5, h6, h7⟩ :=
    order_pricing_breakdown sampleDB 7 sampleRequest ["ORD-000000333"] 0 true
      sampleRestaurant
      [⟨10, 2, 10, 20, none⟩, ⟨11, 1, 5, 5, none⟩]
      (by decide) (by with_unfolding_all rfl) (by with_unfolding_all rfl) rfl
  have ht : o.total_amount = 25 := by
    rw [h2]
    with_unfolding_all rfl
  have hfee : o.delivery_fee = 5 / 2 := by
    rw [h4]
    with_unfolding_all rfl
  have htax : o.tax_amount = 5 / 4 := by
    rw [h3, ht]
    norm_num
  refine ⟨o, h1, ht, htax, hfee, ?_, h6, h7⟩
  rw [h5, ht, hfee, htax]
  norm_num

/-- C8: every stored order line snapshots the catalog price at order time
(`unit_price` is the looked-up row's price, `total_price = quantity *
unit_price`), the lines are appended together with the order, and a later
catalog price change (`UPDATE food_items SET price = ...`) alters neither
the stored lines nor what `getOrder` returns. -/
theorem order_line_price_snapshot (db : DB) (cid : Nat) (req : OrderRequest)
    (nums : List String) (now : Nat) (emitOk : Bool)
    (restaurant : Restaurant) (res : List ResolvedItem)
    (hv : validateOrderRequest req = true)
    (hr : db.restaurants.find?
        (fun r => r.id == req.restaurant_id && r.is_active) = some restaurant)
    (hi : resolveItems db.food_items req.restaurant_id req.items =
        Except.ok res)
    (hn : (db.orders.any fun o => o.order_number == nums.headD "") = false) :
    (∃ ls : List OrderItem,
      (createOrder db cid req nums now emitOk).2.order_items =
        db.order_items ++ ls ∧
      ls.length = req.items.length ∧
      ∀ l ∈ ls, ∃ fi : FoodItem, fi ∈ db.food_items ∧
        fi.id = l.food_item_id ∧
        l.unit_price = fi.price ∧
        l.total_price = l.unit_price * (l.quantity : ℚ)) ∧
    (∀ (d : DB) (itemId : Nat) (newPrice : ℚ),
      (updateFoodItemPrice d itemId newPrice).order_items = d.order_items ∧
      (updateFoodItemPrice d itemId newPrice).orders = d.orders ∧
      ∀ (u : User) (oid : Nat),
        getOrder (updateFoodItemPrice d itemId newPrice) u oid =
          getOrder d u oid) := by
  constructor
  · have hcommit := createOrder_commit db cid req nums now emitOk
      restaurant res hv hr hi hn
    rw [hcommit]
    refine ⟨_, rfl, ?_, ?_⟩
    · rw [List.length_map, (resolveItems_spec _ _ _ _ hi).1]
    · intro l hl
      obtain ⟨it, hit, rfl⟩ := List.mem_map.mp hl
      obtain ⟨fi, hfind, hav, hup, htp⟩ :=
        (resolveItems_spec _ _ _ _ hi).2.2 it hit
      have hmem := List.mem_of_find?_eq_some hfind
      have hpred := List.find?_some hfind
      simp only [Bool.and_eq_true, beq_iff_eq] at hpred
      exact ⟨fi, hmem, hpred.1, hup, htp⟩
  · intro d itemId newPrice
    exact ⟨rfl, rfl, fun u oid => rfl⟩

/-- C8 witness: the happy-path creation stores lines with snapshot unit
prices, and bumping item 10's catalog price to 999 afterwards changes
neither the stored lines nor the `getOrder` view. -/
theorem order_line_price_snapshot_witness :
    (((createOrder sampleDB 7 sampleRequest ["ORD-000000333"] 0 true).2.order_items.map
        fun l => (l.food_item_id, l.quantity, l.unit_price, l.total_price)) =
      [(10, 2, (10 : ℚ), 20), (11, 1, (5 : ℚ), 5)]) ∧
    ((updateFoodItemPrice
        (createOrder sampleDB 7 sampleRequest ["ORD-000000333"] 0 true).2
        10 999).order_items =
      (createOrder sampleDB 7 sampleRequest ["ORD-000000333"] 0 true).2.order_items) ∧
    (getOrder
        (updateFoodItemPrice
          (createOrder sampleDB 7 sampleRequest ["ORD-000000333"] 0 true).2
          10 999)
        ⟨7, "customer"⟩ 1 =
      getOrder (createOrder sampleDB 7 sampleRequest ["ORD-000000333"] 0 true).2
        ⟨7, "customer"⟩ 1) := by
  have h := order_line_price_snapshot sampleDB 7 sampleRequest
    ["ORD-000000333"] 0 true sampleRestaurant
    [⟨10, 2, 10, 20, none⟩, ⟨11, 1, 5, 5, none⟩]
    (by decide) (by with_unfolding_all rfl) (by with_unfolding_all rfl) rfl
  refine ⟨by with_unfolding_all rfl, ?_, ?_⟩
  · exact (h.2 (createOrder sampleDB 7 sampleRequest
      ["ORD-000000333"] 0 true).2 10 999).1
  · exact (h.2 (createOrder sampleDB 7 sampleRequest
      ["ORD-000000333"] 0 true).2 10 999).2.2 ⟨7, "customer"⟩ 1

/-- C9: on a committed creation, exactly the creating customer's cart
rows joining to a food item of the ordered restaurant are deleted, inside
the same commit: every such row is gone, every other row (other customer,
or other restaurant's item) survives, and no row is added. -/
theorem cart_cleanup_scoped (db : DB) (cid : Nat) (req : OrderRequest)
    (nums : List String) (now : Nat) (emitOk : Bool)
    (restaurant : Restaurant) (res : List ResolvedItem)
    (hv : validateOrderRequest req = true)
    (hr : db.restaurants.find?
        (fun r => r.id == req.restaurant_id && r.is_active) = some restaurant)
    (hi : resolveItems db.food_items req.restaurant_id req.items =
        Except.ok res)
    (hn : (db.orders.any fun o => o.order_number == nums.headD "") = false) :
    (∀ ci ∈ db.cart_items, ci.customer_id = cid →
      (db.food_items.any fun fi =>
        fi.id == ci.food_item_id &&
        fi.restaurant_id == req.restaurant_id) = true →
      ci ∉ (createOrder db cid req nums now emitOk).2.cart_items) ∧
    (∀ ci ∈ db.cart_items,
      ¬(ci.customer_id = cid ∧
        (db.food_items.any fun fi =>
          fi.id == ci.food_item_id &&
          fi.restaurant_id == req.restaurant_id) = true) →
      ci ∈ (createOrder db cid req nums now emitOk).2.cart_items) ∧
    (∀ ci : CartItem,
      ci ∈ (createOrder db cid req nums now emitOk).2.cart_items →
      ci ∈ db.cart_items) := by
  have hcommit := createOrder_commit db cid req nums now emitOk
    restaurant res hv hr hi hn
  rw [hcommit]
  have hanyeq : ∀ ci : CartItem,
      ((incrementCounts db.food_items res).any fun fi =>
        fi.id == ci.food_item_id && fi.restaurant_id == req.restaurant_id) =
      (db.food_items.any fun fi =>
        fi.id == ci.food_item_id && fi.restaurant_id == req.restaurant_id) := by
    intro ci
    rw [incrementCounts_eq]
    exact any_map_pres
      (fun fi : FoodItem =>
        { fi with total_orders := fi.total_orders + sumQtyFor res fi.id })
      (fun fi => fi.id == ci.food_item_id &&
        fi.restaurant_id == req.restaurant_id)
      (fun fi => rfl) db.food_items
  refine ⟨?_, ?_, ?_⟩
  · intro ci hci hcid hany hmem
    rw [clearCart] at hmem
    have hpred := (List.mem_filter.mp hmem).2
    rw [hanyeq ci] at hpred
    simp [hcid, hany] at hpred
  · intro ci hci hnot
    show ci ∈ List.filter _ db.cart_items
    refine List.mem_filter.mpr ⟨hci, ?_⟩
    rw [hanyeq ci]
    by_cases hc : ci.customer_id = cid
    · have hany : (db.food_items.any fun fi =>
          fi.id == ci.food_item_id &&
          fi.restaurant_id == req.restaurant_id) = false := by
        cases h : db.food_items.any fun fi =>
            fi.id == ci.food_item_id &&
            fi.restaurant_id == req.restaurant_id with
        | false => rfl
        | true => exact absurd ⟨hc, h⟩ hnot
      simp [hc, hany]
    · simp [hc]
  · intro ci hmem
    rw [clearCart] at hmem
    exact (List.mem_filter.mp hmem).1

/-- C9 witness: on the sample store, customer 7's cart row for item 10
(restaurant 1) is deleted, while their row for item 20 (restaurant 2) and
customer 8's row for item 11 both survive. -/
theorem cart_cleanup_scoped_witness :
    ((⟨7, 10, 2⟩ : CartItem) ∉
        (createOrder sampleDB 7 sampleRequest ["ORD-000000333"] 0 true).2.cart_items) ∧
    ((⟨7, 20, 1⟩ : CartItem) ∈
        (createOrder sampleDB 7 sampleRequest ["ORD-000000333"] 0 true).2.cart_items) ∧
    ((⟨8, 11, 1⟩ : CartItem) ∈
        (createOrder sampleDB 7 sampleRequest ["ORD-000000333"] 0 true).2.cart_items) := by
  obtain ⟨hdel, hkeep, _⟩ :=
    cart_cleanup_scoped sampleDB 7 sampleRequest ["ORD-000000333"] 0 true
      sampleRestaurant [⟨10, 2, 10, 20, none⟩, ⟨11, 1, 5, 5, none⟩]
      (by decide) (by with_unfolding_all rfl) (by with_unfolding_all rfl) rfl
  refine ⟨hdel ⟨7, 10, 2⟩ (by decide) rfl (by decide), ?_, ?_⟩
  · refine hkeep ⟨7, 20, 1⟩ (by decide) ?_
    intro h
    have h2 := h.2
    have hfalse : (sampleDB.food_items.any fun fi =>
        fi.id == (20 : Nat) &&
        fi.restaurant_id == sampleRequest.restaurant_id) = false := by decide
    rw [hfalse] at h2
    exact Bool.false_ne_true h2
  · refine hkeep ⟨8, 11, 1⟩ (by decide) ?_
    intro h
    exact absurd h.1 (by decide)

/-- C6 counterexample: the generator would next produce the fresh number
`ORD-000000333` (with which the creation would commit, as
`creationPersists` shows), but the handler consumes only the first drawn
number `ORD-000000111`, which collides — and it fails with the 400
duplicate-entry error instead of retrying with the second number. -/
theorem order_number_retry_counterexample :
    createOrder collisionDB 7 sampleRequest
        ["ORD-000000111", "ORD-000000333"] 0 true =
      (Except.error ⟨400, "Duplicate field value entered"⟩, collisionDB) ∧
    (collisionDB.orders.any fun o =>
      o.order_number == "ORD-000000111") = true ∧
    (collisionDB.orders.any fun o =>
      o.order_number == "ORD-000000333") = false ∧
    creationPersists collisionDB sampleRequest ["ORD-000000333"] = true :=
  ⟨by with_unfolding_all rfl, by decide, by decide,
   by with_unfolding_all rfl⟩

/-- C6 amended: the handler draws exactly one order number per request —
its behaviour only depends on the first value the generator would
produce — and a collision of that number with an existing order makes the
whole creation fail with the error-handler's 400 duplicate-entry error and
no retry, leaving the store unchanged. -/
theorem duplicate_order_number_surfaces :
    (∀ (db : DB) (cid : Nat) (req : OrderRequest) (n : String)
      (rest : List String) (now : Nat) (emitOk : Bool),
      createOrder db cid req (n :: rest) now emitOk =
        createOrder db cid req [n] now emitOk) ∧
    (∀ (db : DB) (cid : Nat) (req : OrderRequest) (nums : List String)
      (now : Nat) (emitOk : Bool)
      (restaurant : Restaurant) (res : List ResolvedItem),
      validateOrderRequest req = true →
      db.restaurants.find?
        (fun r => r.id == req.restaurant_id && r.is_active) =
        some restaurant →
      resolveItems db.food_items req.restaurant_id req.items =
        Except.ok res →
      (db.orders.any fun o => o.order_number == nums.headD "") = true →
      createOrder db cid req nums now emitOk =
        (Except.error ⟨400, "Duplicate field value entered"⟩, db)) := by
  constructor
  · intro db cid req n rest now emitOk
    rfl
  · intro db cid req nums now emitOk restaurant res hv hr hi hdup
    rw [createOrder]
    simp only [hv, Bool.not_true, Bool.false_eq_true, if_false]
    rw [createOrderCore]
    simp only [hr, hi, hdup, if_true]

/-- C6 amended-claim witness: the colliding creation on `collisionDB`
surfaces the duplicate-entry error with the store unchanged. -/
theorem duplicate_order_number_surfaces_witness :
    createOrder collisionDB 7 sampleRequest ["ORD-000000111"] 0 true =
      (Except.error ⟨400, "Duplicate field value entered"⟩, collisionDB) :=
  duplicate_order_number_surfaces.2 collisionDB 7 sampleRequest
    ["ORD-000000111"] 0 true sampleRestaurant
    [⟨10, 2, 10, 20, none⟩, ⟨11, 1, 5, 5, none⟩]
    (by decide) (by with_unfolding_all rfl) (by with_unfolding_all rfl)
    (by decide)

/-- C7: the notification emit runs only after `commit`, so its outcome
cannot change the persisted state — the store is identical whether the
emit succeeds or throws.  But the handler's `catch` rethrows a thrown
emit error after its (now ineffective) `rollback`, so on the concrete
happy-path request with a throwing emit the caller receives a 500 error
even though the order row is durably persisted — contradicting the
claim's "never surfaced to the caller". -/
theorem notification_failure_surfaces :
    (∀ (db : DB) (cid : Nat) (req : OrderRequest) (nums : List String)
      (now : Nat),
      (createOrder db cid req nums now true).2 =
        (createOrder db cid req nums now false).2) ∧
    (createOrder sampleDB 7 sampleRequest ["ORD-000000333"] 0 false).1 =
      Except.error ⟨500, "dispatch threw after commit"⟩ ∧
    ((createOrder sampleDB 7 sampleRequest ["ORD-000000333"] 0 false).2.orders.map
      fun o => (o.customer_id, o.order_number)) = [(7, "ORD-000000333")] := by
  refine ⟨?_, by with_unfolding_all rfl, by with_unfolding_all rfl⟩
  intro db cid req nums now
  rw [createOrder, createOrder]
  cases hv : validateOrderRequest req with
  | false => simp [hv]
  | true =>
    simp only [hv, Bool.not_true, Bool.false_eq_true, if_false]
    cases hcore : createOrderCore db cid req nums now with
    | error e => rfl
    | ok p =>
      cases p with
      | mk orderId db' => rfl

end FoodMarket
